import Mathlib

deriving instance DecidableEq for Except

/-!
# Verification of django-payments-tr core behaviors

Shallow embedding of the provider registry (`src/payments_tr/providers/registry.py`),
the EFT approval service and the Stripe gateway adapter of the
`django-payments-tr` repository, with proofs of the specified properties.

Python dictionaries are modelled as insertion-ordered association lists with
unique keys; Python exceptions as `Except String`; Python `None` as `Option`.
-/

namespace PaymentsTr

/-- ASCII-faithful model of Python `str.lower()`, written so that it reduces
in the kernel (core `String.toLower` does not). -/
def pyLower (s : String) : String := ⟨s.data.map Char.toLower⟩

/-- Insertion-ordered lookup: value of the first pair whose key equals `k`
(Python `d[k]` / `d.get(k)`). -/
def dictLookup {α : Type} (l : List (String × α)) (k : String) : Option α :=
  (l.find? (fun p => p.1 == k)).map (·.2)

/-- Python `k in d`. -/
def dictMem {α : Type} (l : List (String × α)) (k : String) : Bool :=
  l.any (fun p => p.1 == k)

/-- Python `d[k] = v`: overwrite in place when the key exists (position kept),
append otherwise. -/
def dictInsert {α : Type} (l : List (String × α)) (k : String) (v : α) :
    List (String × α) :=
  if dictMem l k then
    l.map (fun p => if p.1 == k then (k, v) else p)
  else
    l ++ [(k, v)]

/-- Python `del d[k]` guarded by `if k in d` (registry.unregister). -/
def dictRemove {α : Type} (l : List (String × α)) (k : String) :
    List (String × α) :=
  l.filter (fun p => !(p.1 == k))

/-- Python truthiness of an optional string: `None` and `""` are falsy. -/
def truthyStr : Option String → Bool
  | none => false
  | some s => s ≠ ""

/-- Python `a or b` for an optional string `a` and string `b`
(registry.get line `name = (name or self._get_default_name()).lower()`). -/
def pyOrStr (a : Option String) (b : String) : String :=
  if truthyStr a then a.getD "" else b

/-- Host Django settings relevant to the registry: the `PAYMENTS_TR` attribute,
`none` when the attribute is absent; its value is a string-keyed dict. -/
structure DjangoSettings where
  PAYMENTS_TR : Option (List (String × String))

/-- `ProviderRegistry._get_default_name`:
`getattr(settings, "PAYMENTS_TR", {}).get("DEFAULT_PROVIDER", "stripe")`. -/
def getDefaultName (s : DjangoSettings) : String :=
  match s.PAYMENTS_TR with
  | none => "stripe"
  | some d => (dictLookup d "DEFAULT_PROVIDER").getD "stripe"

/-- A freshly constructed provider instance `cls()`: instantiation of a
provider class `C` carries no further data at this level of abstraction. -/
structure ProviderInstance (C : Type) where
  cls : C
  deriving DecidableEq, Repr

/-- `ProviderRegistry`: the `_providers` dict mapping lower-cased names to
provider classes, insertion-ordered. -/
structure ProviderRegistry (C : Type) where
  providers : List (String × C)
  deriving DecidableEq, Repr

namespace ProviderRegistry

/-- `ProviderRegistry.__init__`: empty dict. -/
def empty (C : Type) : ProviderRegistry C := ⟨[]⟩

/-- `ProviderRegistry.register`: lower-case the name and store the class. -/
def register {C : Type} (r : ProviderRegistry C) (name : String) (cls : C) :
    ProviderRegistry C :=
  ⟨dictInsert r.providers (pyLower name) cls⟩

/-- `ProviderRegistry.unregister`: lower-case the name, delete if present. -/
def unregister {C : Type} (r : ProviderRegistry C) (name : String) :
    ProviderRegistry C :=
  ⟨dictRemove r.providers (pyLower name)⟩

/-- `", ".join(self._providers.keys()) or "none"`. -/
def availableStr {C : Type} (r : ProviderRegistry C) : String :=
  let joined := String.intercalate ", " (r.providers.map (·.1))
  if joined = "" then "none" else joined

/-- The `ValueError` message raised by `ProviderRegistry.get`. -/
def unknownProviderMsgGet {C : Type} (r : ProviderRegistry C) (name : String) :
    String :=
  "Unknown payment provider: " ++ name ++ ". " ++
  "Available providers: " ++ availableStr r ++ ". " ++
  "Make sure the provider package is installed " ++
  "(e.g., pip install django-payments-tr[" ++ name ++ "])"

/-- The `ValueError` message raised by `ProviderRegistry.get_class`. -/
def unknownProviderMsgGetClass {C : Type} (r : ProviderRegistry C)
    (name : String) : String :=
  "Unknown payment provider: " ++ name ++ ". Available: " ++ availableStr r

/-- `ProviderRegistry.get`: resolve `(name or default).lower()`, then look up;
raise `ValueError` when unknown, else instantiate. -/
def get {C : Type} (r : ProviderRegistry C) (settings : DjangoSettings)
    (name : Option String) : Except String (ProviderInstance C) :=
  let n := pyLower (pyOrStr name (getDefaultName settings))
  match dictLookup r.providers n with
  | none => .error (unknownProviderMsgGet r n)
  | some c => .ok ⟨c⟩

/-- `ProviderRegistry.get_class`: lower-case lookup without instantiation. -/
def get_class {C : Type} (r : ProviderRegistry C) (name : String) :
    Except String C :=
  let n := pyLower name
  match dictLookup r.providers n with
  | none => .error (unknownProviderMsgGetClass r n)
  | some c => .ok c

/-- `ProviderRegistry.list_providers`: the keys in insertion order. -/
def list_providers {C : Type} (r : ProviderRegistry C) : List String :=
  r.providers.map (·.1)

/-- `ProviderRegistry.is_registered`: case-insensitive membership. -/
def is_registered {C : Type} (r : ProviderRegistry C) (name : String) : Bool :=
  dictMem r.providers (pyLower name)

end ProviderRegistry

/-- `msg` contains `sub` as a contiguous substring (stated on the underlying
character lists so that it is decidable). -/
def containsSubstr (msg sub : String) : Prop :=
  sub.data <:+: msg.data

instance (msg sub : String) : Decidable (containsSubstr msg sub) :=
  inferInstanceAs (Decidable (sub.data <:+: msg.data))

/-! ## EFT approval service

`payments_tr/eft/services.py` is not present in the source tree (only its
tests are), so the service is modelled from the spec, with the test suite
(`tests/test_eft.py`) fixing the observable shapes. -/

/-- The acting user passed to approve/reject, reduced to its identifier. -/
structure EFTUser where
  id : Nat
  deriving DecidableEq, Repr

/-- The EFT payment record fields the approval service reads (the
`PaymentLike` structural contract of the spec). Timestamps are abstract
`Nat` ticks; `none` models a null field. -/
structure EFTPayment where
  id : Nat
  eft_reference_number : Option String
  approved_at : Option Nat
  approved_by : Option Nat
  rejected_at : Option Nat
  rejected_by : Option Nat
  rejection_reason : String
  deriving DecidableEq, Repr

/-- `ApprovalResult`: outcome of an approve/reject attempt. -/
structure ApprovalResult where
  success : Bool
  payment_id : Nat
  action : String
  error : Option String
  deriving DecidableEq, Repr

/-- A host-supplied record mutator (`payment.approve(user)` or
`payment.reject(user, reason)` after partial application): returns the
updated record, or raises an exception with a message (`Except.error`). -/
abbrev EFTMutator := EFTPayment → EFTUser → Except String EFTPayment

/-- Modelled from the spec: `EFTApprovalService.approve_payment`
(`payments_tr/eft/services.py`, absent from the source tree). Preconditions
checked in order: (a) the payment must have a non-empty
`eft_reference_number`, else it fails with "no EFT reference number";
(b) the payment must not already be approved, else it fails with
"already approved". The record's `approve(user)` mutator then runs inside a
transaction: an exception is caught and converted to a failed result carrying
its message, the roll-back leaving the record unchanged. On success with
`notify` true the `on_approved(payment, user)` hook fires (the returned
flag). Returns (result, record state after the call, hook fired?). -/
def approve_payment (approveMut : EFTMutator) (p : EFTPayment) (u : EFTUser)
    (notify : Bool := true) : ApprovalResult × EFTPayment × Bool :=
  if ¬ truthyStr p.eft_reference_number then
    (⟨false, p.id, "approved",
      some "Payment has no EFT reference number"⟩, p, false)
  else if p.approved_at.isSome then
    (⟨false, p.id, "approved", some "Payment is already approved"⟩, p, false)
  else
    match approveMut p u with
    | .error msg => (⟨false, p.id, "approved", some msg⟩, p, false)
    | .ok p' => (⟨true, p.id, "approved", none⟩, p', notify)

/-- Modelled from the spec: `EFTApprovalService.reject_payment`, symmetric to
`approve_payment` with the "already rejected" precondition; `rejectMut` is
the record's `reject(user, reason)` mutator with the reason already applied. -/
def reject_payment (rejectMut : EFTMutator) (p : EFTPayment) (u : EFTUser)
    (notify : Bool := true) : ApprovalResult × EFTPayment × Bool :=
  if p.rejected_at.isSome then
    (⟨false, p.id, "rejected", some "Payment is already rejected"⟩, p, false)
  else
    match rejectMut p u with
    | .error msg => (⟨false, p.id, "rejected", some msg⟩, p, false)
    | .ok p' => (⟨true, p.id, "rejected", none⟩, p', notify)

/-- Modelled from the spec: `EFTApprovalService.bulk_approve` — one
independent `approve_payment` per input, results in input order. -/
def bulk_approve (approveMut : EFTMutator) (ps : List EFTPayment)
    (u : EFTUser) : List ApprovalResult :=
  ps.map (fun p => (approve_payment approveMut p u).1)

/-! ## Stripe gateway adapter

`payments_tr/providers/stripe.py` is not present in the source tree (only its
tests are), so `handle_webhook` and `create_refund` are modelled from the
spec, with `tests/test_stripe_provider.py` fixing the observable shapes.
The outbound gateway calls are oracle parameters. -/

/-- The value found under `"payment_id"` in the webhook event metadata:
the key may be absent, explicitly `None`, or a string. -/
inductive MetadataValue
  | absent
  | null
  | str (s : String)
  deriving DecidableEq, Repr

/-- The three shapes the normalized webhook `payment_id` can take. -/
inductive PaymentId
  | int (n : Nat)
  | str (s : String)
  | null
  deriving DecidableEq, Repr

/-- `WebhookResult`: outcome of inbound webhook verification/parsing. -/
structure WebhookResult where
  success : Bool
  event_type : Option String
  payment_id : PaymentId
  should_retry : Bool
  error_message : Option String
  deriving DecidableEq, Repr

/-- A verified Stripe event: its type string and the metadata value under
`"payment_id"`. -/
structure StripeEvent where
  type : String
  payment_id_meta : MetadataValue
  deriving DecidableEq, Repr

/-- Outcome of the gateway's `Webhook.construct_event(payload, sig, secret)`
call: a verified event, a `SignatureVerificationError`, or any other raised
exception. -/
inductive VerifyOutcome
  | ok (event : StripeEvent)
  | sigError (msg : String)
  | raised (msg : String)
  deriving DecidableEq, Repr

/-- Python `int(s)` succeeds on these metadata strings: non-empty, all
decimal digits. -/
def isNumericStr (s : String) : Bool :=
  s ≠ "" && s.data.all Char.isDigit

/-- Decimal value of an all-digit character list. -/
def digitsToNat (l : List Char) : Nat :=
  l.foldl (fun n c => 10 * n + (c.toNat - 48)) 0

/-- Modelled from the spec: the webhook `payment_id` coercion — a numeric
string converts to an integer; a non-numeric string passes through
unchanged; an absent key or `None` value passes through as `None`. -/
def coercePaymentId : MetadataValue → PaymentId
  | .absent => .null
  | .null => .null
  | .str s => if isNumericStr s then .int (digitsToNat s.data) else .str s

/-- Modelled from the spec: `StripeAdapter.handle_webhook`
(`payments_tr/providers/stripe.py`, absent from the source tree). Fails fast
with a missing-signature error (`should_retry = false`) when no signature is
supplied (Python-falsy: absent or empty); on a signature-verification
failure returns an invalid-signature error with `should_retry = false`; on
any other exception during parsing returns the exception's message with
`should_retry = true`; on success extracts the event type and the coerced
metadata `payment_id`. `verify payload sig` is the outcome of the gateway's
`construct_event` call for the configured webhook secret. -/
def handle_webhook (verify : String → String → VerifyOutcome)
    (payload : String) (signature : Option String) : WebhookResult :=
  if ¬ truthyStr signature then
    ⟨false, none, .null, false, some "Missing Stripe signature header"⟩
  else
    match verify payload (signature.getD "") with
    | .sigError _ => ⟨false, none, .null, false, some "Invalid signature"⟩
    | .raised msg => ⟨false, none, .null, true, some msg⟩
    | .ok ev => ⟨true, some ev.type, coercePaymentId ev.payment_id_meta,
        false, none⟩

/-- `RefundResult`: outcome of a refund attempt. -/
structure RefundResult where
  success : Bool
  provider_refund_id : Option String
  amount : Option Nat
  error_message : Option String
  deriving DecidableEq, Repr

/-- The fields of a successful gateway refund response. -/
structure StripeRefundData where
  id : String
  amount : Nat
  deriving DecidableEq, Repr

/-- Modelled from the spec: `StripeAdapter.create_refund`
(`payments_tr/providers/stripe.py`, absent from the source tree). Resolves
the target payment-intent id as `provider_payment_id or
payment.stripe_payment_intent_id` (Python truthiness); with no resolvable id
it fails with a descriptive error before any gateway call. `gateway` is the
outbound `Refund.create` call keyed by the resolved intent id (amount and
reason forwarding abstracted — no verified claim concerns them); the second
component of the result lists the gateway calls made. -/
def create_refund (gateway : String → Except String StripeRefundData)
    (stored_intent_id : Option String) (provider_payment_id : Option String) :
    RefundResult × List String :=
  let pid := if truthyStr provider_payment_id then provider_payment_id
             else stored_intent_id
  if truthyStr pid then
    match gateway (pid.getD "") with
    | .ok r => (⟨true, some r.id, some r.amount, none⟩, [pid.getD ""])
    | .error m => (⟨false, none, none, some m⟩, [pid.getD ""])
  else
    (⟨false, none, none,
      some "No Stripe payment intent ID found for refund"⟩, [])

end PaymentsTr

/-! ## Helper lemmas -/

namespace PaymentsTr

theorem dictLookup_insert_self {α : Type} (l : List (String × α)) (k : String)
    (v : α) : dictLookup (dictInsert l k v) k = some v := by
  unfold dictInsert
  by_cases hmem : dictMem l k = true
  · simp only [hmem, if_true]
    induction l with
    | nil => simp [dictMem] at hmem
    | cons p t ih =>
      by_cases hp : p.1 == k
      · simp [dictLookup, List.find?, hp]
      · simp only [dictMem, List.any_cons, hp, Bool.false_or] at hmem
        simpa [dictLookup, List.find?, hp] using ih hmem
  · simp only [hmem, if_false]
    have hnone : (l.find? (fun p => p.1 == k)) = none := by
      rw [List.find?_eq_none]
      intro x hx
      simp only [dictMem, List.any_eq_true, not_exists, not_and] at hmem
      have h' := hmem x hx
      simpa using h'
    simp [dictLookup, List.find?_append, hnone, List.find?]

theorem dictMem_insert_self {α : Type} (l : List (String × α)) (k : String)
    (v : α) : dictMem (dictInsert l k v) k = true := by
  unfold dictInsert
  by_cases hmem : dictMem l k = true
  · simp only [hmem, if_true]
    unfold dictMem at hmem ⊢
    rcases List.any_eq_true.mp hmem with ⟨x, hx, hxk⟩
    refine List.any_eq_true.mpr
      ⟨(k, v), List.mem_map.mpr ⟨x, hx, by simp [hxk]⟩, by simp⟩
  · simp only [hmem, if_false]
    unfold dictMem
    exact List.any_eq_true.mpr ⟨(k, v), by simp, by simp⟩

theorem dictLookup_eq_none_of_not_mem {α : Type} (l : List (String × α))
    (k : String) (h : dictMem l k = false) : dictLookup l k = none := by
  unfold dictLookup
  have hfind : List.find? (fun p => p.1 == k) l = none := by
    rw [List.find?_eq_none]
    intro x hx
    unfold dictMem at h
    have := (List.any_eq_false.mp h) x hx
    simpa using this
  rw [hfind]
  rfl

theorem keys_dictInsert_of_mem {α : Type} (l : List (String × α)) (k : String)
    (v : α) (h : dictMem l k = true) :
    (dictInsert l k v).map (·.1) = l.map (·.1) := by
  unfold dictInsert
  simp only [h, if_true, List.map_map]
  refine List.map_congr_left ?_
  intro x _
  by_cases hx : x.1 == k
  · simp [Function.comp, hx]
    exact (eq_of_beq hx).symm
  · simp [Function.comp, hx]

theorem containsSubstr_of_decomp (a sub b : String) :
    containsSubstr (a ++ sub ++ b) sub := by
  unfold containsSubstr
  exact ⟨a.data, b.data, by simp⟩

theorem unknownProviderMsgGet_contains_available {C : Type}
    (r : ProviderRegistry C) (name : String) :
    containsSubstr (ProviderRegistry.unknownProviderMsgGet r name)
      (ProviderRegistry.availableStr r) := by
  have h : ProviderRegistry.unknownProviderMsgGet r name
      = ("Unknown payment provider: " ++ name ++ ". "
          ++ "Available providers: ")
        ++ ProviderRegistry.availableStr r
        ++ (". " ++ "Make sure the provider package is installed "
          ++ "(e.g., pip install django-payments-tr[" ++ name ++ "])") := by
    simp [ProviderRegistry.unknownProviderMsgGet, String.append_assoc]
  rw [h]
  exact containsSubstr_of_decomp _ _ _

theorem unknownProviderMsgGetClass_contains_available {C : Type}
    (r : ProviderRegistry C) (name : String) :
    containsSubstr (ProviderRegistry.unknownProviderMsgGetClass r name)
      (ProviderRegistry.availableStr r) := by
  have h : ProviderRegistry.unknownProviderMsgGetClass r name
      = ("Unknown payment provider: " ++ name ++ ". Available: ")
        ++ ProviderRegistry.availableStr r ++ "" := by
    simp [ProviderRegistry.unknownProviderMsgGetClass, String.append_assoc]
  rw [h]
  exact containsSubstr_of_decomp _ _ _

theorem availableStr_eq_join {C : Type} (r : ProviderRegistry C)
    (h : String.intercalate ", " r.list_providers ≠ "") :
    ProviderRegistry.availableStr r
      = String.intercalate ", " r.list_providers := by
  simp only [ProviderRegistry.list_providers] at h ⊢
  simp [ProviderRegistry.availableStr, h]

end PaymentsTr

/-! ## Claims about the provider registry -/

namespace PaymentsTr

/-- C1 (amended): for every *nonempty* provider name registered and then
looked up under any casing (itself nonempty), `get_class` returns the
registered class and `get` returns an instance of it; and for every nonempty
name not registered, both `get` and `get_class` fail with the unknown-provider
error, whose text contains the enumeration of the currently registered
provider names. -/
theorem C1_register_lookup_roundtrip {C : Type} (r : ProviderRegistry C)
    (settings : DjangoSettings) (n m q : String) (c : C)
    (hm : m ≠ "") (hcase : pyLower m = pyLower n)
    (hq : q ≠ "") (hqreg : r.is_registered q = false) :
    ((r.register n c).get_class m = .ok c)
    ∧ ((r.register n c).get settings (some m) = .ok ⟨c⟩)
    ∧ (r.get settings (some q)
        = .error (ProviderRegistry.unknownProviderMsgGet r (pyLower q))
      ∧ containsSubstr (ProviderRegistry.unknownProviderMsgGet r (pyLower q))
          (ProviderRegistry.availableStr r))
    ∧ (r.get_class q
        = .error (ProviderRegistry.unknownProviderMsgGetClass r (pyLower q))
      ∧ containsSubstr
          (ProviderRegistry.unknownProviderMsgGetClass r (pyLower q))
          (ProviderRegistry.availableStr r)) := by
  have hlook : dictLookup (r.register n c).providers (pyLower m) = some c := by
    rw [hcase]
    exact dictLookup_insert_self r.providers (pyLower n) c
  have hnone : dictLookup r.providers (pyLower q) = none :=
    dictLookup_eq_none_of_not_mem _ _
      (by simpa [ProviderRegistry.is_registered] using hqreg)
  refine ⟨?_, ?_, ⟨?_, unknownProviderMsgGet_contains_available r _⟩,
    ⟨?_, unknownProviderMsgGetClass_contains_available r _⟩⟩
  · simp [ProviderRegistry.get_class, hlook]
  · have hor : pyOrStr (some m) (getDefaultName settings) = m := by
      simp [pyOrStr, truthyStr, hm]
    simp [ProviderRegistry.get, hor, hlook]
  · have hor : pyOrStr (some q) (getDefaultName settings) = q := by
      simp [pyOrStr, truthyStr, hq]
    simp [ProviderRegistry.get, hor, hnone]
  · simp [ProviderRegistry.get_class, hnone]

/-- C1 witness: the amended theorem applied at a concrete registry holding
`other ↦ 1`, registering `Iyzico ↦ 5` and looking it up as `IYZICO`, with
`unknown` as the unregistered name. -/
theorem C1_register_lookup_roundtrip_witness :
    (("IYZICO" : String) ≠ "" ∧ pyLower "IYZICO" = pyLower "Iyzico"
      ∧ (("unknown" : String) ≠ "")
      ∧ ((ProviderRegistry.empty Nat).register "other" 1).is_registered
          "unknown" = false)
    ∧ (((ProviderRegistry.empty Nat).register "other" 1).register "Iyzico" 5
        |>.get_class "IYZICO") = .ok 5 := by
  refine ⟨⟨by decide, by decide, by decide, by decide⟩, ?_⟩
  exact (C1_register_lookup_roundtrip
    ((ProviderRegistry.empty Nat).register "other" 1) ⟨none⟩
    "Iyzico" "IYZICO" "unknown" 5 (by decide) (by decide) (by decide)
    (by decide)).1

/-- C1 counterexample: the claim as stated fails for the empty provider name.
Register `"" ↦ 7` in an otherwise empty registry: `get_class ""` returns the
class (the name *is* registered), but `get ""` does not return an instance of
it — the empty name is Python-falsy, so `get` falls through to the default
name `stripe` and raises the unknown-provider error. -/
theorem C1_empty_name_counterexample :
    (((ProviderRegistry.empty Nat).register "" 7).get_class "" = .ok 7)
    ∧ (((ProviderRegistry.empty Nat).register "" 7).is_registered "" = true)
    ∧ (((ProviderRegistry.empty Nat).register "" 7).get ⟨none⟩ (some "")
        ≠ .ok ⟨7⟩)
    ∧ (((ProviderRegistry.empty Nat).register "" 7).get ⟨none⟩ (some "")
        = .error (ProviderRegistry.unknownProviderMsgGet
            ((ProviderRegistry.empty Nat).register "" 7) "stripe")) := by
  decide

/-- C2: `get` with `name = None` resolves the default provider name from the
host settings (the literal `"stripe"` when `PAYMENTS_TR` is absent or has no
`DEFAULT_PROVIDER` key) and then performs the ordinary lookup on it:
an instance when the resolved name is registered, the unknown-provider error
(enumerating the registered names) otherwise. -/
theorem C2_default_resolution {C : Type} (r : ProviderRegistry C)
    (settings : DjangoSettings) :
    (r.get settings none = r.get settings (some (getDefaultName settings)))
    ∧ (settings.PAYMENTS_TR = none → getDefaultName settings = "stripe")
    ∧ (∀ d, settings.PAYMENTS_TR = some d →
        dictLookup d "DEFAULT_PROVIDER" = none →
        getDefaultName settings = "stripe")
    ∧ (∀ c, dictLookup r.providers (pyLower (getDefaultName settings))
          = some c → r.get settings none = .ok ⟨c⟩)
    ∧ (dictLookup r.providers (pyLower (getDefaultName settings)) = none →
        r.get settings none
          = .error (ProviderRegistry.unknownProviderMsgGet r
              (pyLower (getDefaultName settings)))
        ∧ containsSubstr
            (ProviderRegistry.unknownProviderMsgGet r
              (pyLower (getDefaultName settings)))
            (ProviderRegistry.availableStr r)) := by
  have hor : pyOrStr none (getDefaultName settings)
      = pyOrStr (some (getDefaultName settings)) (getDefaultName settings) := by
    by_cases hd : getDefaultName settings = ""
    · simp [pyOrStr, truthyStr, hd]
    · simp [pyOrStr, truthyStr, hd]
  refine ⟨?_, ?_, ?_, ?_, ?_⟩
  · simp only [ProviderRegistry.get, hor]
  · intro h
    simp [getDefaultName, h]
  · intro d hd hlook
    simp [getDefaultName, hd, hlook]
  · intro c hc
    simp [ProviderRegistry.get, pyOrStr, truthyStr, hc]
  · intro hn
    exact ⟨by simp [ProviderRegistry.get, pyOrStr, truthyStr, hn],
      unknownProviderMsgGet_contains_available r _⟩

/-- C2 witness: with no `PAYMENTS_TR` setting the default resolves to
`stripe`, and `get None` on a registry holding `stripe ↦ 9` returns an
instance of 9. -/
theorem C2_default_resolution_witness :
    dictLookup ((ProviderRegistry.empty Nat).register "Stripe" 9).providers
      (pyLower (getDefaultName ⟨none⟩)) = some 9
    ∧ ((ProviderRegistry.empty Nat).register "Stripe" 9).get ⟨none⟩ none
        = .ok ⟨9⟩
    ∧ getDefaultName ⟨none⟩ = "stripe" := by
  refine ⟨by decide, ?_, ?_⟩
  · exact (C2_default_resolution ((ProviderRegistry.empty Nat).register
      "Stripe" 9) ⟨none⟩).2.2.2.1 9 (by decide)
  · exact (C2_default_resolution (ProviderRegistry.empty Nat) ⟨none⟩).2.1 rfl

/-- C3: registry names are case-insensitive and unique — two registrations
whose names agree up to casing leave a single entry: the second silently
overwrites the first (the key set is unchanged by the second registration),
and a lookup under any casing of the name returns the class from the later
registration. -/
theorem C3_case_insensitive_overwrite {C : Type} (r : ProviderRegistry C)
    (n1 n2 m : String) (c1 c2 : C)
    (h12 : pyLower n1 = pyLower n2) (hm : pyLower m = pyLower n2) :
    (((r.register n1 c1).register n2 c2).get_class m = .ok c2)
    ∧ (((r.register n1 c1).register n2 c2).list_providers
        = (r.register n1 c1).list_providers)
    ∧ (((r.register n1 c1).register n2 c2).is_registered m = true) := by
  have hlook : dictLookup ((r.register n1 c1).register n2 c2).providers
      (pyLower m) = some c2 := by
    rw [hm]
    exact dictLookup_insert_self _ _ _
  refine ⟨by simp [ProviderRegistry.get_class, hlook], ?_, ?_⟩
  · show ProviderRegistry.list_providers _ = _
    simp only [ProviderRegistry.list_providers, ProviderRegistry.register]
    exact keys_dictInsert_of_mem _ _ _
      (by rw [← h12]; exact dictMem_insert_self _ _ _)
  · simp only [ProviderRegistry.is_registered, ProviderRegistry.register, hm]
    exact dictMem_insert_self _ _ _

/-- C3 witness: registering `Stripe ↦ 1` then `STRIPE ↦ 2` leaves one entry
and `get_class "stripe"` returns 2. -/
theorem C3_case_insensitive_overwrite_witness :
    pyLower "Stripe" = pyLower "STRIPE"
    ∧ (((ProviderRegistry.empty Nat).register "Stripe" 1).register "STRIPE" 2
        |>.get_class "stripe") = .ok 2 := by
  refine ⟨by decide, ?_⟩
  exact (C3_case_insensitive_overwrite (ProviderRegistry.empty Nat)
    "Stripe" "STRIPE" "stripe" 1 2 (by decide) (by decide)).1

/-- C10: calling `registry.get` with the empty string behaves identically to
calling it with `None`: the lookup name is `(name or default)`, and `""` is
Python-falsy, so the empty name falls through to default-provider
resolution. -/
theorem C10_empty_name_is_default {C : Type} (r : ProviderRegistry C)
    (settings : DjangoSettings) :
    r.get settings (some "") = r.get settings none := rfl

end PaymentsTr

/-! ## Claims about the EFT approval service (spec-modelled) -/

namespace PaymentsTr

/-- C4 (amended): for every payment already in the Approved state whose EFT
reference number is non-empty, `approve_payment` returns a failed result
whose error contains "already approved" and leaves `approved_at` and
`approved_by` exactly as they were. (Without the reference-number proviso the
claim fails: the spec checks the preconditions in order and reports a blank
reference first — see the counterexample.) -/
theorem C4_double_approval_fails (mu : EFTMutator) (p : EFTPayment)
    (u : EFTUser) (notify : Bool)
    (href : truthyStr p.eft_reference_number = true)
    (happ : p.approved_at.isSome = true) :
    ((approve_payment mu p u notify).1.success = false)
    ∧ ((approve_payment mu p u notify).1.error
        = some "Payment is already approved")
    ∧ containsSubstr "Payment is already approved" "already approved"
    ∧ ((approve_payment mu p u notify).2.1.approved_at = p.approved_at)
    ∧ ((approve_payment mu p u notify).2.1.approved_by = p.approved_by) := by
  have h : approve_payment mu p u notify
      = (⟨false, p.id, "approved", some "Payment is already approved"⟩,
         p, false) := by
    simp [approve_payment, href, happ]
  rw [h]
  exact ⟨rfl, rfl, by decide, rfl, rfl⟩

/-- C4 witness: a payment with reference `REF123` approved at tick 5 by user
3; a second approval fails with the already-approved error and leaves both
fields untouched. -/
theorem C4_double_approval_fails_witness :
    (truthyStr (⟨1, some "REF123", some 5, some 3, none, none, ""⟩
        : EFTPayment).eft_reference_number = true
      ∧ (⟨1, some "REF123", some 5, some 3, none, none, ""⟩
        : EFTPayment).approved_at.isSome = true)
    ∧ (approve_payment (fun q _ => .ok q)
        ⟨1, some "REF123", some 5, some 3, none, none, ""⟩ ⟨3⟩ true).1.success
        = false := by
  refine ⟨⟨by decide, by decide⟩, ?_⟩
  exact (C4_double_approval_fails (fun q _ => .ok q)
    ⟨1, some "REF123", some 5, some 3, none, none, ""⟩ ⟨3⟩ true
    (by decide) (by decide)).1

/-- C4 counterexample: the claim as stated fails for an approved payment with
a blank reference number — the reference-number precondition is checked
first, so the error does not mention "already approved" (though the call
still fails and mutates nothing). -/
theorem C4_blank_reference_counterexample :
    ((⟨1, none, some 0, some 1, none, none, ""⟩
        : EFTPayment).approved_at.isSome = true)
    ∧ ((approve_payment (fun q _ => .ok q)
        ⟨1, none, some 0, some 1, none, none, ""⟩ ⟨1⟩ true).1.success = false)
    ∧ ¬ containsSubstr
        (((approve_payment (fun q _ => .ok q)
          ⟨1, none, some 0, some 1, none, none, ""⟩ ⟨1⟩ true).1.error).getD "")
        "already approved" := by
  decide

/-- C5: `bulk_approve` over `N` payments returns exactly `N` results, and the
`i`-th result is exactly `approve_payment` of the `i`-th input — each entry
depends only on its own payment, so one raising mutation makes only that
entry fail while every other entry is what it would have been anyway. -/
theorem C5_bulk_order_and_independence (mu : EFTMutator)
    (ps : List EFTPayment) (u : EFTUser) :
    ((bulk_approve mu ps u).length = ps.length)
    ∧ (∀ i (hi : i < ps.length) (hi2 : i < (bulk_approve mu ps u).length),
        (bulk_approve mu ps u).get ⟨i, hi2⟩
          = (approve_payment mu (ps.get ⟨i, hi⟩) u).1) := by
  constructor
  · simp [bulk_approve]
  · intro i hi hi2
    simp [bulk_approve]

/-- C5 witness: three pending payments, the mutator raising only on the
second; the batch yields three results where exactly the second fails. -/
theorem C5_bulk_order_and_independence_witness :
    ((bulk_approve (fun q _ => if q.id = 2 then .error "DB error" else .ok q)
        [⟨1, some "R1", none, none, none, none, ""⟩,
         ⟨2, some "R2", none, none, none, none, ""⟩,
         ⟨3, some "R3", none, none, none, none, ""⟩] ⟨7⟩).length = 3)
    ∧ ((bulk_approve (fun q _ => if q.id = 2 then .error "DB error" else .ok q)
        [⟨1, some "R1", none, none, none, none, ""⟩,
         ⟨2, some "R2", none, none, none, none, ""⟩,
         ⟨3, some "R3", none, none, none, none, ""⟩] ⟨7⟩).get ⟨1, by decide⟩
        = (approve_payment
            (fun q _ => if q.id = 2 then .error "DB error" else .ok q)
            ⟨2, some "R2", none, none, none, none, ""⟩ ⟨7⟩).1)
    ∧ ((bulk_approve (fun q _ => if q.id = 2 then .error "DB error" else .ok q)
        [⟨1, some "R1", none, none, none, none, ""⟩,
         ⟨2, some "R2", none, none, none, none, ""⟩,
         ⟨3, some "R3", none, none, none, none, ""⟩] ⟨7⟩)
        = [⟨true, 1, "approved", none⟩,
           ⟨false, 2, "approved", some "DB error"⟩,
           ⟨true, 3, "approved", none⟩]) := by
  refine ⟨?_, ?_, by decide⟩
  · exact (C5_bulk_order_and_independence
      (fun q _ => if q.id = 2 then .error "DB error" else .ok q)
      [⟨1, some "R1", none, none, none, none, ""⟩,
       ⟨2, some "R2", none, none, none, none, ""⟩,
       ⟨3, some "R3", none, none, none, none, ""⟩] ⟨7⟩).1
  · exact (C5_bulk_order_and_independence
      (fun q _ => if q.id = 2 then .error "DB error" else .ok q)
      [⟨1, some "R1", none, none, none, none, ""⟩,
       ⟨2, some "R2", none, none, none, none, ""⟩,
       ⟨3, some "R3", none, none, none, none, ""⟩] ⟨7⟩).2 1 (by decide)
      (by decide)

/-- C6: an exception raised by the record mutator inside `approve_payment` or
`reject_payment` (reachable only when the preconditions pass) is caught and
converted to a failed result carrying the exception's message, the record
left unchanged by the rolled-back transaction; both operations are total, so
no exception propagates to the caller. -/
theorem C6_mutation_exception_caught (amut rmut : EFTMutator)
    (p : EFTPayment) (u : EFTUser) (notify : Bool) (msg : String)
    (href : truthyStr p.eft_reference_number = true)
    (hnapp : p.approved_at = none) (hnrej : p.rejected_at = none)
    (haraise : amut p u = .error msg) (hrraise : rmut p u = .error msg) :
    ((approve_payment amut p u notify).1
        = ⟨false, p.id, "approved", some msg⟩)
    ∧ ((approve_payment amut p u notify).2.1 = p)
    ∧ ((reject_payment rmut p u notify).1
        = ⟨false, p.id, "rejected", some msg⟩)
    ∧ ((reject_payment rmut p u notify).2.1 = p) := by
  have ha : approve_payment amut p u notify
      = (⟨false, p.id, "approved", some msg⟩, p, false) := by
    simp [approve_payment, href, hnapp, haraise]
  have hr : reject_payment rmut p u notify
      = (⟨false, p.id, "rejected", some msg⟩, p, false) := by
    simp [reject_payment, hnrej, hrraise]
  rw [ha, hr]
  exact ⟨rfl, rfl, rfl, rfl⟩

/-- C6 witness: a pending payment whose mutators raise `DB error`; both
operations return failed results carrying that message. -/
theorem C6_mutation_exception_caught_witness :
    (truthyStr (⟨4, some "REF9", none, none, none, none, ""⟩
        : EFTPayment).eft_reference_number = true)
    ∧ ((approve_payment (fun _ _ => .error "DB error")
        ⟨4, some "REF9", none, none, none, none, ""⟩ ⟨2⟩ true).1
        = ⟨false, 4, "approved", some "DB error"⟩) := by
  refine ⟨by decide, ?_⟩
  exact (C6_mutation_exception_caught (fun _ _ => .error "DB error")
    (fun _ _ => .error "DB error")
    ⟨4, some "REF9", none, none, none, none, ""⟩ ⟨2⟩ true "DB error"
    (by decide) (by decide) (by decide) (by decide) (by decide)).1

end PaymentsTr

/-! ## Claims about the Stripe adapter (spec-modelled) -/

namespace PaymentsTr

/-- C7: on a successfully verified webhook the metadata `payment_id` is
coerced by exactly this rule — a numeric string becomes the integer it
denotes, a non-numeric string passes through unchanged, an absent or `None`
value passes through as `None`; in particular `"456" ↦ 456`,
`"abc123" ↦ "abc123"`. -/
theorem C7_payment_id_coercion (verify : String → String → VerifyOutcome)
    (payload sig : String) (ev : StripeEvent) (hsig : sig ≠ "")
    (hok : verify payload sig = .ok ev) :
    ((handle_webhook verify payload (some sig)).success = true)
    ∧ ((handle_webhook verify payload (some sig)).payment_id
        = coercePaymentId ev.payment_id_meta)
    ∧ (∀ s, isNumericStr s = true →
        coercePaymentId (.str s) = .int (digitsToNat s.data))
    ∧ (∀ s, isNumericStr s = false → coercePaymentId (.str s) = .str s)
    ∧ (coercePaymentId .null = .null)
    ∧ (coercePaymentId .absent = .null)
    ∧ (coercePaymentId (.str "456") = .int 456)
    ∧ (coercePaymentId (.str "abc123") = .str "abc123") := by
  have h : handle_webhook verify payload (some sig)
      = ⟨true, some ev.type, coercePaymentId ev.payment_id_meta,
          false, none⟩ := by
    simp [handle_webhook, truthyStr, hsig, hok]
  refine ⟨by rw [h], by rw [h], ?_, ?_, rfl, rfl, by decide, by decide⟩
  · intro s hs
    simp [coercePaymentId, hs]
  · intro s hs
    simp [coercePaymentId, hs]

/-- C7 witness: a verified `payment_intent.succeeded` event whose metadata
`payment_id` is `"456"` yields the integer 456. -/
theorem C7_payment_id_coercion_witness :
    (("sig_123" : String) ≠ "")
    ∧ ((handle_webhook
        (fun _ _ => .ok ⟨"payment_intent.succeeded", .str "456"⟩)
        "payload" (some "sig_123")).payment_id
        = coercePaymentId (.str "456"))
    ∧ (coercePaymentId (.str "456") = .int 456) := by
  refine ⟨by decide, ?_, by decide⟩
  exact (C7_payment_id_coercion
    (fun _ _ => .ok ⟨"payment_intent.succeeded", .str "456"⟩)
    "payload" "sig_123" ⟨"payment_intent.succeeded", .str "456"⟩
    (by decide) (by decide)).2.1

/-- C8: `handle_webhook` classifies failures for retryability — a missing
(Python-falsy) signature gives a non-retryable failure whose error mentions
the missing signature; a signature-verification failure gives a non-retryable
invalid-signature failure; any other exception during parsing gives a
retryable failure carrying the exception's message. -/
theorem C8_webhook_retry_classification
    (verify : String → String → VerifyOutcome) (payload : String)
    (sig : Option String) (s m : String) :
    (truthyStr sig = false →
        handle_webhook verify payload sig
          = ⟨false, none, .null, false,
              some "Missing Stripe signature header"⟩
        ∧ containsSubstr "Missing Stripe signature header" "signature")
    ∧ (s ≠ "" → verify payload s = .sigError m →
        handle_webhook verify payload (some s)
          = ⟨false, none, .null, false, some "Invalid signature"⟩)
    ∧ (s ≠ "" → verify payload s = .raised m →
        handle_webhook verify payload (some s)
          = ⟨false, none, .null, true, some m⟩) := by
  refine ⟨?_, ?_, ?_⟩
  · intro hsig
    exact ⟨by simp [handle_webhook, hsig], by decide⟩
  · intro hs hv
    simp [handle_webhook, truthyStr, hs, hv]
  · intro hs hv
    simp [handle_webhook, truthyStr, hs, hv]

/-- C8 witness: with no signature supplied the result is a non-retryable
missing-signature failure; a raising verifier gives a retryable failure. -/
theorem C8_webhook_retry_classification_witness :
    (truthyStr (none : Option String) = false)
    ∧ (handle_webhook (fun _ _ => .raised "boom") "payload" none
        = ⟨false, none, .null, false, some "Missing Stripe signature header"⟩)
    ∧ (handle_webhook (fun _ _ => .raised "boom") "payload" (some "sig")
        = ⟨false, none, .null, true, some "boom"⟩) := by
  refine ⟨by decide, ?_, ?_⟩
  · exact ((C8_webhook_retry_classification (fun _ _ => .raised "boom")
      "payload" none "sig" "boom").1 (by decide)).1
  · exact (C8_webhook_retry_classification (fun _ _ => .raised "boom")
      "payload" (some "sig") "sig" "boom").2.2 (by decide) (by decide)

/-- C9: `create_refund` resolves the target payment-intent id preferring a
truthy explicit `provider_payment_id` argument over the id stored on the
payment record, and with neither available it fails with a descriptive error
having made no gateway call (the call list is empty). -/
theorem C9_refund_id_resolution (gw : String → Except String StripeRefundData)
    (stored arg : Option String) :
    (truthyStr arg = true → (create_refund gw stored arg).2 = [arg.getD ""])
    ∧ (truthyStr arg = false → truthyStr stored = true →
        (create_refund gw stored arg).2 = [stored.getD ""])
    ∧ (truthyStr arg = false → truthyStr stored = false →
        ((create_refund gw stored arg).1.success = false)
        ∧ ((create_refund gw stored arg).1.error_message
            = some "No Stripe payment intent ID found for refund")
        ∧ ((create_refund gw stored arg).2 = [])) := by
  refine ⟨?_, ?_, ?_⟩
  · intro ha
    cases hgw : gw (arg.getD "") <;> simp [create_refund, ha, hgw]
  · intro ha hs
    cases hgw : gw (stored.getD "") <;> simp [create_refund, ha, hs, hgw]
  · intro ha hs
    have h : create_refund gw stored arg
        = (⟨false, none, none,
            some "No Stripe payment intent ID found for refund"⟩, []) := by
      simp [create_refund, ha, hs]
    rw [h]
    exact ⟨rfl, rfl, rfl⟩

/-- C9 witness: an explicit argument `pi_456` wins over the stored `pi_123`;
with neither id the call fails without touching the gateway. -/
theorem C9_refund_id_resolution_witness :
    (truthyStr (some "pi_456") = true)
    ∧ ((create_refund (fun _ => .ok ⟨"re_1", 500⟩) (some "pi_123")
        (some "pi_456")).2 = ["pi_456"])
    ∧ ((create_refund (fun _ => .ok ⟨"re_1", 500⟩) none none).1.success
        = false)
    ∧ ((create_refund (fun _ => .ok ⟨"re_1", 500⟩) none none).2 = []) := by
  refine ⟨by decide, ?_, ?_, ?_⟩
  · exact (C9_refund_id_resolution (fun _ => .ok ⟨"re_1", 500⟩)
      (some "pi_123") (some "pi_456")).1 (by decide)
  · exact ((C9_refund_id_resolution (fun _ => .ok ⟨"re_1", 500⟩)
      none none).2.2 (by decide) (by decide)).1
  · exact ((C9_refund_id_resolution (fun _ => .ok ⟨"re_1", 500⟩)
      none none).2.2 (by decide) (by decide)).2.2

end PaymentsTr
